import Mathlib

/-!
# Verification of the ACP adapter core

A shallow embedding of the tool-call manager, tool registry dispatcher,
filesystem tool provider, terminal progress helper, connection pool and
HTTP stream adapter of the cursor-agent ACP adapter, together with
theorems settling the behavioural claims about them.

JavaScript runtime values that flow through tool parameters and outputs
are modelled by the inductive `JVal`; machine time (`Date.now()`) is an
explicit `Nat` argument wherever the source reads the clock.
-/

set_option maxRecDepth 8192

namespace CursorAcp

/-- JSON-like runtime values (tool parameters, raw inputs and outputs). -/
inductive JVal where
  | null
  | bool (b : Bool)
  | num (n : Int)
  | str (s : String)
  | arr (elems : List JVal)
  | obj (fields : List (String × JVal))

/-- JavaScript truthiness of a value (`null`, `false`, `0` and the empty
string are falsy; arrays and objects are always truthy). -/
def jsTruthy : JVal → Bool
  | .null => false
  | .bool b => b
  | .num n => decide (n ≠ 0)
  | .str s => decide (s ≠ "")
  | .arr _ => true
  | .obj _ => true

/-- Truthiness of a possibly-absent value (`undefined` is falsy). -/
def jsTruthyOpt : Option JVal → Bool
  | none => false
  | some v => jsTruthy v

/-- Source `a || b` on possibly-absent values: the first operand when truthy,
otherwise the second. -/
def jsOr (a b : Option JVal) : Option JVal :=
  if jsTruthyOpt a then a else b

/-- JavaScript `String(v)` / template-literal conversion of a value. -/
def jsToString : JVal → String
  | .null => "null"
  | .bool b => if b then "true" else "false"
  | .num n => toString n
  | .str s => s
  | .arr _ => ""
  | .obj _ => "[object Object]"

/-- Template interpolation of a possibly-absent value (`undefined` prints
as the string undefined). -/
def jsToStringOpt : Option JVal → String
  | none => "undefined"
  | some v => jsToString v

/-- Source `${p || 'dflt'}`: interpolate the value when truthy, else the default. -/
def jsOrElseStr (v : Option JVal) (dflt : String) : String :=
  if jsTruthyOpt v then jsToStringOpt v else dflt

/-- Source `String.prototype.startsWith`: character-level prefix test. -/
def strStartsWith (pre s : String) : Bool :=
  List.isPrefixOf pre.data s.data

/-- Key lookup in a parameters object (`parameters[k]`). -/
def getField (fields : List (String × JVal)) (k : String) : Option JVal :=
  (fields.find? (fun f => decide (f.1 = k))).map (fun f => f.2)

/-- Source `k in parameters`: key presence, independent of the value. -/
def hasField (fields : List (String × JVal)) (k : String) : Bool :=
  fields.any (fun f => decide (f.1 = k))

/-- ACP tool kinds (`@agentclientprotocol/sdk` ToolKind). -/
inductive ToolKind where
  | read | edit | delete | move | search | execute | think | fetch
  | switchMode | other
deriving DecidableEq

/-- Tool call lifecycle states. -/
inductive ToolCallStatus where
  | pending | inProgress | completed | failed
deriving DecidableEq

/-- A reported file location (`{ path: <value> }`). -/
structure ToolCallLocation where
  path : JVal

/-- Tool call content blocks: plain text content, a terminal pointer, or a
converted diff block (opaque payload). -/
inductive ToolCallContent where
  | contentText (text : String)
  | terminal (terminalId : String)
  | diff (v : JVal)

/-- The full tool call update record stored per call and sent with the
initial `tool_call` notification (tool-call-manager.ts, `ToolCallUpdate`). -/
structure ToolCallUpdate where
  toolCallId : String
  title : String
  kind : ToolKind
  status : ToolCallStatus
  rawInput : Option (List (String × JVal)) := none
  locations : Option (List ToolCallLocation) := none
  content : Option (List ToolCallContent) := none
  rawOutput : Option JVal := none

/-- A `tool_call_update` notification payload: only the changed fields
are present (tool-call-manager.ts, `updateToolCall`). -/
structure ToolCallUpdatePayload where
  toolCallId : String
  title : Option String := none
  status : Option ToolCallStatus := none
  content : Option (List ToolCallContent) := none
  locations : Option (List ToolCallLocation) := none
  rawOutput : Option JVal := none

/-- The `session/update` sub-kinds emitted by the tool call manager. -/
inductive SessionUpdate where
  | toolCall (u : ToolCallUpdate)
  | toolCallUpdate (p : ToolCallUpdatePayload)

/-- A `session/update` notification (`params` of the JSON-RPC frame). -/
structure AcpNotification where
  sessionId : String
  update : SessionUpdate

/-- Per-call tracking record (tool-call-manager.ts, `ToolCallInfo`);
`startTime`/`endTime` are clock readings. -/
structure ToolCallInfo where
  toolCallId : String
  sessionId : String
  toolName : String
  status : ToolCallStatus
  startTime : Nat
  endTime : Option Nat := none
  update : ToolCallUpdate

/-- The mutable state of a `ToolCallManager`: the map of active calls
(insertion ordered, keyed by `toolCallId`) and the id counter. -/
structure ManagerState where
  activeToolCalls : List ToolCallInfo := []
  toolCallCounter : Nat := 0

/-- Map lookup `activeToolCalls.get(toolCallId)`. -/
def ManagerState.lookup (st : ManagerState) (id : String) : Option ToolCallInfo :=
  st.activeToolCalls.find? (fun c => decide (c.toolCallId = id))

/-- Map update `activeToolCalls.set(id, info)`: replace in place when the
key exists, append otherwise. -/
def setToolCall (id : String) (info : ToolCallInfo) (l : List ToolCallInfo) :
    List ToolCallInfo :=
  if l.any (fun c => decide (c.toolCallId = id)) then
    l.map (fun c => if c.toolCallId = id then info else c)
  else l ++ [info]

/-- Source `generateToolCallId`: bump the counter and build
`tool_<name>_<epochMs>_<counter>`. -/
def generateToolCallId (toolName : String) (now : Nat) (st : ManagerState) :
    String × ManagerState :=
  let counter := st.toolCallCounter + 1
  ("tool_" ++ toolName ++ "_" ++ toString now ++ "_" ++ toString counter,
    { st with toolCallCounter := counter })

/-- Options accepted by `reportToolCall`. -/
structure ReportOptions where
  title : String
  kind : ToolKind
  status : Option ToolCallStatus := none
  rawInput : Option (List (String × JVal)) := none
  locations : Option (List ToolCallLocation) := none

/-- Source `reportToolCall`: issue an id, store the call and emit one
`session/update` notification of sub-kind `tool_call`. -/
def reportToolCall (sessionId toolName : String) (options : ReportOptions)
    (now : Nat) (st : ManagerState) :
    String × ManagerState × AcpNotification :=
  let (toolCallId, st) := generateToolCallId toolName now st
  let update : ToolCallUpdate :=
    { toolCallId := toolCallId
      title := options.title
      kind := options.kind
      status := options.status.getD .pending
      rawInput := options.rawInput
      locations := options.locations }
  let info : ToolCallInfo :=
    { toolCallId := toolCallId
      sessionId := sessionId
      toolName := toolName
      status := options.status.getD .pending
      startTime := now
      update := update }
  let st := { st with activeToolCalls := setToolCall toolCallId info st.activeToolCalls }
  (toolCallId, st, { sessionId := sessionId, update := .toolCall update })

/-- Field updates accepted by `updateToolCall`. -/
structure UpdateOptions where
  title : Option String := none
  status : Option ToolCallStatus := none
  content : Option (List ToolCallContent) := none
  locations : Option (List ToolCallLocation) := none
  rawOutput : Option JVal := none

/-- Merge an update into the stored record (`toolCallInfo.update = {...}`). -/
def mergeUpdate (u : ToolCallUpdate) (updates : UpdateOptions) : ToolCallUpdate :=
  { u with
    title := updates.title.getD u.title
    status := updates.status.getD u.status
    content := match updates.content with | some c => some c | none => u.content
    locations := match updates.locations with | some l => some l | none => u.locations
    rawOutput := match updates.rawOutput with | some r => some r | none => u.rawOutput }

/-- Apply `updateToolCall`'s status/endTime/merge mutation to one record. -/
def applyUpdateInfo (updates : UpdateOptions) (now : Nat) (info : ToolCallInfo) :
    ToolCallInfo :=
  let info :=
    match updates.status with
    | some s =>
      { info with
        status := s
        endTime :=
          if s = ToolCallStatus.completed ∨ s = ToolCallStatus.failed then some now
          else info.endTime }
    | none => info
  { info with update := mergeUpdate info.update updates }

/-- Source `updateToolCall`: when the id is tracked, mutate the stored record and
emit one `tool_call_update` notification carrying only the changed fields;
when it is unknown, log and emit nothing. -/
def updateToolCall (sessionId toolCallId : String) (updates : UpdateOptions)
    (now : Nat) (st : ManagerState) : ManagerState × List AcpNotification :=
  match st.lookup toolCallId with
  | none => (st, [])
  | some _ =>
    let st :=
      { st with
        activeToolCalls :=
          st.activeToolCalls.map (fun c =>
            if c.toolCallId = toolCallId then applyUpdateInfo updates now c else c) }
    let payload : ToolCallUpdatePayload :=
      { toolCallId := toolCallId
        title := updates.title
        status := updates.status
        content := updates.content
        locations := updates.locations
        rawOutput := updates.rawOutput }
    (st, [{ sessionId := sessionId, update := .toolCallUpdate payload }])

/-- Options accepted by `completeToolCall`. -/
structure CompleteOptions where
  title : Option String := none
  content : Option (List ToolCallContent) := none
  rawOutput : Option JVal := none

/-- Source `completeToolCall` = `updateToolCall` with status `completed`.  The
delayed 30-second eviction of the entry is a timer and is not part of the
synchronous transition. -/
def completeToolCall (sessionId toolCallId : String) (options : CompleteOptions)
    (now : Nat) (st : ManagerState) : ManagerState × List AcpNotification :=
  updateToolCall sessionId toolCallId
    { title := options.title
      status := some .completed
      content := options.content
      rawOutput := options.rawOutput } now st

/-- Options accepted by `failToolCall`. -/
structure FailOptions where
  title : Option String := none
  error : String
  rawOutput : Option JVal := none

/-- Source `options.title || 'Tool execution failed'` (JavaScript truthiness:
an empty title string is also replaced). -/
def failTitle (title : Option String) : String :=
  match title with
  | some t => if t = "" then "Tool execution failed" else t
  | none => "Tool execution failed"

/-- Source `failToolCall` = `updateToolCall` with status `failed` and the error
wrapped into a text content block.  The delayed eviction timer is again
not part of the synchronous transition. -/
def failToolCall (sessionId toolCallId : String) (options : FailOptions)
    (now : Nat) (st : ManagerState) : ManagerState × List AcpNotification :=
  let content : List ToolCallContent := [.contentText ("Error: " ++ options.error)]
  updateToolCall sessionId toolCallId
    { title := some (failTitle options.title)
      status := some .failed
      content := some content
      rawOutput := options.rawOutput } now st

/-- Source `getSessionToolCalls`: the active calls of one session, map order. -/
def getSessionToolCalls (sessionId : String) (st : ManagerState) :
    List ToolCallInfo :=
  st.activeToolCalls.filter (fun c => decide (c.sessionId = sessionId))

/-- Source `activeToolCalls.delete(id)`. -/
def deleteToolCall (id : String) (st : ManagerState) : ManagerState :=
  { st with activeToolCalls := st.activeToolCalls.filter (fun c => decide (c.toolCallId ≠ id)) }

/-- The loop body of `cancelSessionToolCalls`: fail every pending or
in-progress call with title "Cancelled by user", then drop it from the map. -/
def cancelLoop (sessionId : String) (now : Nat) :
    List ToolCallInfo → ManagerState → ManagerState × List AcpNotification
  | [], st => (st, [])
  | c :: rest, st =>
    let step :=
      if c.status = .pending ∨ c.status = .inProgress then
        updateToolCall sessionId c.toolCallId
          { status := some .failed, title := some ("Cancelled by user") } now st
      else (st, [])
    let st1 := deleteToolCall c.toolCallId step.1
    let tail := cancelLoop sessionId now rest st1
    (tail.1, step.2 ++ tail.2)

/-- Source `cancelSessionToolCalls`: snapshot the session's calls, then run the
cancellation loop over the snapshot. -/
def cancelSessionToolCalls (sessionId : String) (now : Nat) (st : ManagerState) :
    ManagerState × List AcpNotification :=
  cancelLoop sessionId now (getSessionToolCalls sessionId st) st

/-- A permission outcome (`{outcome, optionId?}`). -/
structure PermissionOutcome where
  outcome : String
  optionId : Option String := none
deriving DecidableEq

/-- A permission option offered to the client. -/
structure PermissionOption where
  optionId : String
  name : String
  kind : String
deriving DecidableEq

/-- The request forwarded to a wired `requestPermission` handler. -/
structure RequestPermissionParams where
  sessionId : String
  toolCall : ToolCallUpdate
  options : List PermissionOption

/-- What an external `requestPermission` handler does with a request:
either it throws, or its promise resolves to an outcome or to nothing. -/
inductive HandlerResult where
  | threw (msg : String)
  | returned (o : Option PermissionOutcome)

/-- Source `requestToolPermission`.  The handler, when wired, is an arbitrary
external function; its rejection is caught, and a missing handler, an
unknown tool call, a thrown handler and a falsy outcome all fall back to
a default selection.  The function is total: it never throws. -/
def requestToolPermission
    (handler : Option (RequestPermissionParams → HandlerResult))
    (sessionId toolCallId : String) (options : List PermissionOption)
    (st : ManagerState) : PermissionOutcome :=
  match handler with
  | none => { outcome := "selected", optionId := some ("allow-once") }
  | some f =>
    match st.lookup toolCallId with
    | none => { outcome := "selected", optionId := some ("reject-once") }
    | some info =>
      match f { sessionId := sessionId, toolCall := info.update, options := options } with
      | .threw _ => { outcome := "selected", optionId := some ("reject-once") }
      | .returned none => { outcome := "selected", optionId := some ("reject-once") }
      | .returned (some outcome) => outcome

/-! ## Tool registry and dispatcher (tool-registry source, `ToolRegistry`) -/

/-- The part of the registry's `Tool` contract that drives dispatch:
the name and the JSON-schema `required` key list (`tool.parameters.required`).
The handler itself is an external async function; executions are
parameterised by its outcome. -/
structure Tool where
  name : String
  required : List String

/-- A structured tool result `{success, result?, error?, metadata?}`;
`diffs` stands for `metadata.diffs` when that field is an array. -/
structure ToolResult where
  success : Bool
  result : Option JVal := none
  error : Option String := none
  diffs : Option (List JVal) := none

/-- Source `validateToolParameters`: `null`/`undefined` and non-object shapes are
rejected, then each `required` key must be present (`in`) and not null. -/
def validateRequired (fields : List (String × JVal)) : List String → Option String
  | [] => none
  | p :: rest =>
    if hasField fields p = false then some ("Missing required parameter: " ++ p)
    else
      match getField fields p with
      | some JVal.null => some ("Parameter " ++ p ++ " cannot be null or undefined")
      | _ => validateRequired fields rest

/-- Source `validateToolParameters` (tool registry).  The `parameters` argument is
the runtime value: `none` models `undefined`. -/
def validateToolParameters (tool : Tool) (parameters : Option JVal) : Option String :=
  match parameters with
  | none => some ("Parameters are required and must be an object")
  | some JVal.null => some ("Parameters are required and must be an object")
  | some (JVal.bool _) => some ("Parameters must be an object")
  | some (JVal.num _) => some ("Parameters must be an object")
  | some (JVal.str _) => some ("Parameters must be an object")
  | some (JVal.arr _) => some ("Parameters must be an object")
  | some (JVal.obj fields) => validateRequired fields tool.required

/-- Source `extractLocations`: `path` (else `sourcePath`), then
`destinationPath || destination`, then every entry of `files[]`. -/
def extractLocations (parameters : List (String × JVal)) : List ToolCallLocation :=
  let fromPath : List ToolCallLocation :=
    if jsTruthyOpt (getField parameters ("path")) then
      [{ path := (getField parameters ("path")).getD JVal.null }]
    else if jsTruthyOpt (getField parameters ("sourcePath")) then
      [{ path := (getField parameters ("sourcePath")).getD JVal.null }]
    else []
  let dest := jsOr (getField parameters ("destinationPath")) (getField parameters ("destination"))
  let fromDest : List ToolCallLocation :=
    if jsTruthyOpt (getField parameters ("destinationPath"))
        ∨ jsTruthyOpt (getField parameters ("destination")) then
      [{ path := dest.getD JVal.null }]
    else []
  let fromFiles : List ToolCallLocation :=
    match getField parameters ("files") with
    | some (JVal.arr files) =>
      if jsTruthy (JVal.arr files) then files.map (fun f => { path := f }) else []
    | _ => []
  fromPath ++ fromDest ++ fromFiles

/-- Source `getToolKind`: the fixed tool-name → ACP kind map, defaulting to
`other`. -/
def getToolKind (toolName : String) : ToolKind :=
  if toolName = "read_file" ∨ toolName = "copy_file" ∨ toolName = "list_directory"
      ∨ toolName = "get_file_info" ∨ toolName = "analyze_code"
      ∨ toolName = "get_project_info" then .read
  else if toolName = "write_file" ∨ toolName = "append_file" ∨ toolName = "create_file"
      ∨ toolName = "patch_file" ∨ toolName = "apply_code_changes" then .edit
  else if toolName = "delete_file" ∨ toolName = "remove_file"
      ∨ toolName = "remove_directory" then .delete
  else if toolName = "move_file" ∨ toolName = "rename_file" then .move
  else if toolName = "search_codebase" ∨ toolName = "search_files" ∨ toolName = "grep"
      ∨ toolName = "find_files" ∨ toolName = "find_references"
      ∨ toolName = "find_definitions" then .search
  else if toolName = "run_tests" ∨ toolName = "run_command" ∨ toolName = "execute_command"
      ∨ toolName = "run_script" ∨ toolName = "shell" then .execute
  else if toolName = "fetch_url" ∨ toolName = "http_request" ∨ toolName = "download_file"
      ∨ toolName = "api_request" ∨ toolName = "web_search" then .fetch
  else if toolName = "think" ∨ toolName = "reason" ∨ toolName = "plan"
      ∨ toolName = "analyze" ∨ toolName = "explain_code" then .think
  else if toolName = "switch_mode" ∨ toolName = "set_mode"
      ∨ toolName = "change_mode" then .switchMode
  else .other

/-- Source `getToolTitle`: the per-name human readable title templates. -/
def getToolTitle (toolName : String) (p : List (String × JVal)) : String :=
  if toolName = "read_file" then "Reading file: " ++ jsOrElseStr (getField p ("path")) ("unknown")
  else if toolName = "copy_file" then "Copying file: " ++ jsOrElseStr (getField p ("source")) ("unknown")
  else if toolName = "list_directory" then "Listing directory: " ++ jsOrElseStr (getField p ("path")) ("unknown")
  else if toolName = "get_file_info" then "Getting file info: " ++ jsOrElseStr (getField p ("path")) ("unknown")
  else if toolName = "write_file" then "Writing file: " ++ jsOrElseStr (getField p ("path")) ("unknown")
  else if toolName = "append_file" then "Appending to file: " ++ jsOrElseStr (getField p ("path")) ("unknown")
  else if toolName = "create_file" then "Creating file: " ++ jsOrElseStr (getField p ("path")) ("unknown")
  else if toolName = "patch_file" then "Patching file: " ++ jsOrElseStr (getField p ("path")) ("unknown")
  else if toolName = "apply_code_changes" then
    let n := match getField p ("changes") with
      | some (JVal.arr xs) => xs.length
      | _ => 0
    "Applying " ++ toString n ++ " code changes"
  else if toolName = "delete_file" ∨ toolName = "remove_file" then
    "Deleting file: " ++ jsOrElseStr (getField p ("path")) ("unknown")
  else if toolName = "remove_directory" then "Removing directory: " ++ jsOrElseStr (getField p ("path")) ("unknown")
  else if toolName = "move_file" ∨ toolName = "rename_file" then
    "Moving file: " ++ jsOrElseStr (jsOr (getField p ("source")) (getField p ("from"))) ("unknown")
      ++ " → " ++ jsOrElseStr (jsOr (getField p ("destination")) (getField p ("to"))) ("unknown")
  else if toolName = "search_codebase" then "Searching codebase: " ++ jsOrElseStr (getField p ("query")) ("unknown")
  else if toolName = "search_files" ∨ toolName = "grep" then
    "Searching for: " ++ jsOrElseStr (jsOr (getField p ("pattern")) (getField p ("query"))) ("unknown")
  else if toolName = "find_files" then "Finding files: " ++ jsOrElseStr (getField p ("pattern")) ("unknown")
  else if toolName = "find_references" then "Finding references: " ++ jsOrElseStr (getField p ("symbol")) ("unknown")
  else if toolName = "find_definitions" then "Finding definitions: " ++ jsOrElseStr (getField p ("symbol")) ("unknown")
  else if toolName = "run_tests" then "Running tests: " ++ jsOrElseStr (getField p ("test_pattern")) ("all")
  else if toolName = "run_command" ∨ toolName = "execute_command" ∨ toolName = "shell" then
    "Running: " ++ jsOrElseStr (getField p ("command")) ("unknown")
  else if toolName = "run_script" then "Running script: " ++ jsOrElseStr (getField p ("script")) ("unknown")
  else if toolName = "fetch_url" ∨ toolName = "http_request" then
    "Fetching: " ++ jsOrElseStr (getField p ("url")) ("unknown")
  else if toolName = "download_file" then "Downloading: " ++ jsOrElseStr (getField p ("url")) ("unknown")
  else if toolName = "api_request" then
    "API request: " ++ jsOrElseStr (jsOr (getField p ("endpoint")) (getField p ("url"))) ("unknown")
  else if toolName = "web_search" then "Web search: " ++ jsOrElseStr (getField p ("query")) ("unknown")
  else if toolName = "think" ∨ toolName = "reason" then
    "Thinking: " ++ jsOrElseStr (jsOr (getField p ("topic")) (getField p ("question"))) ("reasoning")
  else if toolName = "plan" then "Planning: " ++ jsOrElseStr (getField p ("goal")) ("next steps")
  else if toolName = "analyze" ∨ toolName = "analyze_code" then
    "Analyzing: " ++ jsOrElseStr (jsOr (getField p ("file_path")) (getField p ("target"))) ("unknown")
  else if toolName = "explain_code" then "Explaining code: " ++ jsOrElseStr (getField p ("file_path")) ("unknown")
  else if toolName = "switch_mode" ∨ toolName = "set_mode" ∨ toolName = "change_mode" then
    "Switching to mode: " ++ jsOrElseStr (jsOr (getField p ("mode")) (getField p ("mode_id"))) ("unknown")
  else if toolName = "get_project_info" then "Getting project information"
  else "Executing tool: " ++ toolName

/-- Modelled from the spec: `ToolCallManager.convertDiffContent` (its body
is not in the repository snapshot) converts each member of a diff list
into an ACP diff content block. -/
def convertDiffContent (diffs : List JVal) : List ToolCallContent :=
  diffs.map ToolCallContent.diff

/-- Source `result.error || 'Unknown error'` (JavaScript `||`: an empty error
string is also replaced). -/
def errorOrUnknown (e : Option String) : String :=
  match e with
  | some s => if s = "" then "Unknown error" else s
  | none => "Unknown error"

/-- One observable event of a tool execution: a `session/update`
notification, or the instant the tool's handler is invoked. -/
inductive ExecEvent where
  | notif (n : AcpNotification)
  | handlerCall

/-- The observable outcome of `executeToolWithSession`: the structured
result (success flag, error, issued `toolCallId`), the ordered event
trace, and the final manager state.  Wall-clock metadata (`duration`,
`executedAt`) is omitted from the model. -/
structure ExecResult where
  success : Bool
  error : Option String := none
  result : Option JVal := none
  toolCallId : Option String := none
  events : List ExecEvent := []
  mgr : ManagerState

/-- Source `executeToolWithSession`.  The handler's behaviour is supplied as
`handlerOutcome : Except String ToolResult` (a thrown error message, or
the resolved structured result).  Reporting happens only when a session id
is given and a tool call manager is wired (`shouldReportToolCalls`).
In the model the manager operations are total, so the catch branch that
synthesises a failed report when reporting itself threw before issuing an
id is unreachable and not represented. -/
def executeToolWithSession (tools : List Tool)
    (handlerOutcome : Except String ToolResult)
    (name : String) (parameters : Option JVal)
    (sessionId : Option String) (hasManager : Bool)
    (now : Nat) (mgr : ManagerState) : ExecResult :=
  match tools.find? (fun t => decide (t.name = name)) with
  | none =>
    { success := false, error := some ("Tool not found: " ++ name), mgr := mgr }
  | some tool =>
    match validateToolParameters tool parameters with
    | some validationError =>
      { success := false
        error := some ("Invalid parameters for " ++ name ++ ": " ++ validationError)
        mgr := mgr }
    | none =>
      match sessionId, hasManager with
      | some s, true =>
        let fields := match parameters with
          | some (JVal.obj fields) => fields
          | _ => []
        let locations := extractLocations fields
        let reportOptions : ReportOptions :=
          { title := getToolTitle name fields
            kind := getToolKind name
            status := some .pending
            rawInput := some fields
            locations := if locations.length > 0 then some locations else none }
        let rep := reportToolCall s name reportOptions now mgr
        let toolCallId := rep.1
        let upd := updateToolCall s toolCallId { status := some .inProgress } now rep.2.1
        let pre : List ExecEvent :=
          ExecEvent.notif rep.2.2 :: upd.2.map ExecEvent.notif ++ [ExecEvent.handlerCall]
        match handlerOutcome with
        | .ok result =>
          if result.success then
            let content := result.diffs.map convertDiffContent
            let fin := completeToolCall s toolCallId
              { rawOutput := result.result, content := content } now upd.1
            { success := result.success
              error := result.error
              result := result.result
              toolCallId := some toolCallId
              events := pre ++ fin.2.map ExecEvent.notif
              mgr := fin.1 }
          else
            let fin := failToolCall s toolCallId
              { error := errorOrUnknown result.error, rawOutput := result.result } now upd.1
            { success := result.success
              error := result.error
              result := result.result
              toolCallId := some toolCallId
              events := pre ++ fin.2.map ExecEvent.notif
              mgr := fin.1 }
        | .error errorMessage =>
          let fin := failToolCall s toolCallId { error := errorMessage } now upd.1
          { success := false
            error := some errorMessage
            toolCallId := some toolCallId
            events := pre ++ fin.2.map ExecEvent.notif
            mgr := fin.1 }
      | _, _ =>
        match handlerOutcome with
        | .ok result =>
          { success := result.success
            error := result.error
            result := result.result
            events := [ExecEvent.handlerCall]
            mgr := mgr }
        | .error errorMessage =>
          { success := false
            error := some errorMessage
            events := [ExecEvent.handlerCall]
            mgr := mgr }

/-! ## Filesystem tool provider (`FilesystemToolProvider`) -/

/-- Filesystem tool configuration (`config.tools.filesystem`). -/
structure FileSystemConfig where
  retries : Option Nat := none
  retryDelay : Option Nat := none
  enableMetrics : Option Bool := none

/-- Substring containment (`String.prototype.includes`). -/
def strContainsSub (s pat : String) : Bool :=
  decide (1 < (s.splitOn pat).length)

/-- Errors raised inside a filesystem attempt: an `AcpFileSystemError`
(validation, JSON-RPC -32602) or a generic `Error` from the fs client.
Both are `Error` instances. -/
inductive FsError where
  | acp (msg : String)
  | err (msg : String)

/-- Source `error.message`. -/
def FsError.message : FsError → String
  | .acp m => m
  | .err m => m

/-- Source `isValidationError`: an `AcpFileSystemError`, or an `Error` whose
message speaks of requirements. -/
def isValidationError : FsError → Bool
  | .acp _ => true
  | .err m =>
    strContainsSub m ("is required") ∨ strContainsSub m ("must be")
      ∨ strContainsSub m ("invalid")

/-- Source `isFileNotFoundError` (message patterns on any `Error`). -/
def isFileNotFoundError (e : FsError) : Bool :=
  strContainsSub e.message ("not found") ∨ strContainsSub e.message ("does not exist")
    ∨ strContainsSub e.message ("ENOENT")

/-- Source `isPermissionError` (message patterns on any `Error`). -/
def isPermissionError (e : FsError) : Bool :=
  strContainsSub e.message ("permission denied") ∨ strContainsSub e.message ("access denied")
    ∨ strContainsSub e.message ("EACCES") ∨ strContainsSub e.message ("EPERM")

/-- Source `enhanceFileSystemError`: wrap a message with operation and path. -/
def enhanceFileSystemError (msg operation path : String) : String :=
  "File system " ++ operation ++ " operation failed for '" ++ path ++ "': " ++ msg

/-- The outcome of the single `fs/read_text_file` reverse call of one
attempt: the client resolves with the file content or rejects. -/
inductive FsClientResult where
  | resolved (content : String)
  | rejected (msg : String)

/-- The body of `_readFileOnce` up to its catch-all: every validation
failure and client rejection is a throw (`Except.error`).  The
metrics-mode `operationId` (a wall-clock/random tag) is omitted. -/
def readFileAttempt (params : List (String × JVal)) (client : FsClientResult) :
    Except FsError JVal :=
  let sessionId := getField params ("_sessionId")
  if jsTruthyOpt sessionId = false then
    Except.error (FsError.acp ("Session ID is required for ACP file operations. This is an internal error - please report it."))
  else
    let path := getField params ("path")
    let pathOk := match path with
      | some (JVal.str _) => jsTruthyOpt path
      | _ => false
    if pathOk = false then
      Except.error (FsError.acp ("Valid file path is required. Path must be a non-empty string."))
    else
      let lineOk := match getField params ("line") with
        | none => true
        | some (JVal.num n) => decide (1 ≤ n)
        | some _ => false
      if lineOk = false then
        Except.error (FsError.acp ("Line number must be a positive integer (1-based)"))
      else
        let limitOk := match getField params ("limit") with
          | none => true
          | some (JVal.num n) => decide (1 ≤ n)
          | some _ => false
        if limitOk = false then
          Except.error (FsError.acp ("Limit must be a positive integer"))
        else
          match client with
          | .rejected m => Except.error (FsError.err m)
          | .resolved content =>
            let meta : List (String × JVal) :=
              [("contentLength", JVal.num content.length),
               ("lineCount", JVal.num (content.splitOn ("\n")).length)]
              ++ (match getField params ("line") with
                  | some v => [("startLine", v)] | none => [])
              ++ (match getField params ("limit") with
                  | some v => [("maxLines", v)] | none => [])
              ++ [("source", JVal.str ("acp-client")),
                  ("includesUnsavedChanges", JVal.bool true),
                  ("acpMethod", JVal.str ("fs/read_text_file")),
                  ("sessionId", sessionId.getD JVal.null)]
            Except.ok (JVal.obj
              [("path", path.getD JVal.null),
               ("content", JVal.str content),
               ("_meta", JVal.obj meta)])

/-- Source `_readFileOnce`: the attempt body wrapped in its own catch-all, which
converts EVERY raised error — validation, not-found, permission and
transient alike — into a structured `{success:false}` result.  The
function therefore never throws: its codomain admits an exception only to
mirror the `async` signature, and the `Except.error` constructor is never
produced. -/
def _readFileOnce (params : List (String × JVal)) (client : FsClientResult) :
    Except FsError ToolResult :=
  match readFileAttempt params client with
  | .ok v => Except.ok { success := true, result := some v }
  | .error e =>
    Except.ok
      { success := false
        error := some (enhanceFileSystemError e.message ("read")
          (jsToStringOpt (getField params ("path")))) }

/-- What one run of `readFile` did: the returned-or-raised outcome, the
number of attempts that executed, and the backoff delays awaited (each
entry is the milliseconds of one `delay(retryDelay * attempt)`). -/
structure ReadRun where
  outcome : Except FsError ToolResult
  attemptsMade : Nat
  delays : List Nat

/-- The retry loop of `readFile` (`for attempt = 0..maxRetries`), indexed
by the remaining retries (`remaining = maxRetries − attempt`).  The
classification and re-throw branches mirror the source catch; they are
reachable only if `_readFileOnce` throws. -/
def readFileGo (retryDelay : Nat) (client : Nat → FsClientResult)
    (params : List (String × JVal)) :
    Nat → Nat → List Nat → ReadRun
  | remaining, attempt, delays =>
    let delays := if 0 < attempt then delays ++ [retryDelay * attempt] else delays
    match _readFileOnce params (client attempt) with
    | .ok r => { outcome := .ok r, attemptsMade := attempt + 1, delays := delays }
    | .error e =>
      if isValidationError e ∨ isFileNotFoundError e ∨ isPermissionError e then
        { outcome := .error e, attemptsMade := attempt + 1, delays := delays }
      else
        match remaining with
        | 0 => { outcome := .error e, attemptsMade := attempt + 1, delays := delays }
        | r + 1 => readFileGo retryDelay client params r (attempt + 1) delays

/-- Source `FilesystemToolProvider.readFile`: resolve the retry configuration
(`retries ?? 3`, `retryDelay ?? 1000`) and run the loop from attempt 0.
`client n` is what the fs client would do on attempt `n`. -/
def readFile (cfg : FileSystemConfig) (client : Nat → FsClientResult)
    (params : List (String × JVal)) : ReadRun :=
  readFileGo (cfg.retryDelay.getD 1000) client params (cfg.retries.getD 3) 0 []

/-! ## Terminal progress helper (terminal-utils, `executeWithProgress`) -/

/-- Modelled from the spec: `ToolCallManager.createTerminalContent` (not
in the repository snapshot) builds the `terminal` content pointer
referencing the terminal id, to be embedded in a tool call. -/
def createTerminalContent (terminalId : String) : List ToolCallContent :=
  [ToolCallContent.terminal terminalId]

/-- The tool-call reporting prefix of `executeWithProgress`: after the
terminal is created, the helper reports a tool call named
`execute_command` with title `options.title ?? "$ <command> <args>"`,
`kind: 'edit'` and `status: 'in_progress'`, then embeds the terminal
content pointer with a first `tool_call_update`.  Returns the issued id,
the manager state and the notifications emitted so far, in order. -/
def executeWithProgressReport (sessionId command : String) (args : List String)
    (title? : Option String) (cwd? : Option String) (terminalId : String)
    (now : Nat) (st : ManagerState) :
    String × ManagerState × List AcpNotification :=
  let rawInput : List (String × JVal) :=
    [("command", JVal.str command), ("args", JVal.arr (args.map JVal.str))]
    ++ (match cwd? with | some c => [("cwd", JVal.str c)] | none => [])
  let opts : ReportOptions :=
    { title := title?.getD ("$ " ++ command ++ " " ++ String.intercalate (" ") args)
      kind := .edit
      status := some .inProgress
      rawInput := some rawInput }
  let (toolCallId, st, n1) := reportToolCall sessionId ("execute_command") opts now st
  let terminalContent := createTerminalContent terminalId
  let (st, ns2) := updateToolCall sessionId toolCallId { content := some terminalContent } now st
  (toolCallId, st, n1 :: ns2)

/-! ## Connection pool (connection-pool.ts, `ConnectionPool`) -/

/-- Resolved pool configuration (constructor defaults applied). -/
structure PoolConfig where
  maxConnections : Nat := 100
  maxIdleTime : Nat := 60000
  acquireTimeout : Nat := 5000

/-- A pooled connection record.  The wrapped connection value produced by
the factory is opaque and not represented. -/
structure PooledConnection where
  id : Nat
  createdAt : Nat
  lastUsedAt : Nat
  inUse : Bool
  requestCount : Nat

/-- Pool metrics.  `averageWaitTime` (a floating-point EWMA of wall-clock
waits) is omitted; the gauges are integers so that the model never hides
an underflow. -/
structure PoolMetrics where
  totalCreated : Nat := 0
  totalDestroyed : Nat := 0
  activeConnections : Int := 0
  idleConnections : Int := 0
  totalRequests : Nat := 0
  waitingRequests : Nat := 0
  peakConnections : Nat := 0

/-- The pool state: the connection map (insertion ordered, keyed by id),
the FIFO waiter queue (represented by its length), metrics, the id
counter and whether the cleanup interval is still scheduled. -/
structure PoolState where
  connections : List PooledConnection := []
  waitingQueue : Nat := 0
  metrics : PoolMetrics := {}
  nextConnectionId : Nat := 0
  cleanupActive : Bool := true

/-- Source `getIdleConnection`: the first connection not in use, map order. -/
def getIdleConnection (st : PoolState) : Option PooledConnection :=
  st.connections.find? (fun c => !c.inUse)

/-- Source `markInUse`: flag the connection, stamp `lastUsedAt`, adjust gauges. -/
def markInUse (id : Nat) (now : Nat) (st : PoolState) : PoolState :=
  { st with
    connections := st.connections.map (fun c =>
      if c.id = id then { c with inUse := true, lastUsedAt := now } else c)
    metrics :=
      { st.metrics with
        activeConnections := st.metrics.activeConnections + 1
        idleConnections := st.metrics.idleConnections - 1 } }

/-- Source `createConnection`: append a fresh idle connection and bump the
creation metrics and high-water mark. -/
def createConnection (now : Nat) (st : PoolState) : Nat × PoolState :=
  let id := st.nextConnectionId + 1
  let conn : PooledConnection :=
    { id := id, createdAt := now, lastUsedAt := now, inUse := false, requestCount := 0 }
  let connections := st.connections ++ [conn]
  (id,
    { st with
      connections := connections
      nextConnectionId := id
      metrics :=
        { st.metrics with
          totalCreated := st.metrics.totalCreated + 1
          idleConnections := st.metrics.idleConnections + 1
          peakConnections := max st.metrics.peakConnections connections.length } })

/-- Source `acquire`, sequentially: take an idle connection, else create one when
under the limit, else park in the waiter queue (the parked continuation
resumes inside `release` or fails by timeout). -/
def acquire (cfg : PoolConfig) (now : Nat) (st : PoolState) : PoolState :=
  let st :=
    { st with
      metrics :=
        { st.metrics with
          totalRequests := st.metrics.totalRequests + 1
          waitingRequests := st.metrics.waitingRequests + 1 } }
  match getIdleConnection st with
  | some c =>
    let st := markInUse c.id now st
    { st with metrics := { st.metrics with waitingRequests := st.metrics.waitingRequests - 1 } }
  | none =>
    if st.connections.length < cfg.maxConnections then
      let (id, st) := createConnection now st
      let st := markInUse id now st
      { st with metrics := { st.metrics with waitingRequests := st.metrics.waitingRequests - 1 } }
    else
      { st with waitingQueue := st.waitingQueue + 1 }

/-- Source `release`: unknown ids are ignored; otherwise mark idle, bump the
request count, and serve the head of the waiter queue (whose parked
`acquire` continuation marks the served connection in use). -/
def releaseConn (id : Nat) (now : Nat) (st : PoolState) : PoolState :=
  match st.connections.find? (fun c => decide (c.id = id)) with
  | none => st
  | some _ =>
    let st :=
      { st with
        connections := st.connections.map (fun c =>
          if c.id = id then
            { c with inUse := false, lastUsedAt := now, requestCount := c.requestCount + 1 }
          else c)
        metrics :=
          { st.metrics with
            activeConnections := st.metrics.activeConnections - 1
            idleConnections := st.metrics.idleConnections + 1 } }
    if 0 < st.waitingQueue then
      match getIdleConnection st with
      | none => st
      | some c =>
        let st := { st with waitingQueue := st.waitingQueue - 1 }
        let st := markInUse c.id now st
        { st with
          metrics := { st.metrics with waitingRequests := st.metrics.waitingRequests - 1 } }
    else st

/-- A parked acquire times out: the waiter leaves the queue and the
acquire rejects with the timeout error. -/
def waiterTimeout (st : PoolState) : PoolState :=
  if 0 < st.waitingQueue then
    { st with
      waitingQueue := st.waitingQueue - 1
      metrics := { st.metrics with waitingRequests := st.metrics.waitingRequests - 1 } }
  else st

/-- Source `cleanupIdleConnections`: destroy every idle connection whose idle
time exceeds `maxIdleTime` (each destruction bumps `totalDestroyed` and
drops an idle gauge point). -/
def cleanupIdleConnections (cfg : PoolConfig) (now : Nat) (st : PoolState) : PoolState :=
  let keep := st.connections.filter (fun c =>
    !(c.inUse = false ∧ cfg.maxIdleTime < now - c.lastUsedAt))
  let destroyed := st.connections.length - keep.length
  { st with
    connections := keep
    metrics :=
      { st.metrics with
        totalDestroyed := st.metrics.totalDestroyed + destroyed
        idleConnections := st.metrics.idleConnections - destroyed } }

/-- Source `drain`: waits (wall-clock) for active connections; mutates nothing. -/
def drainPool (st : PoolState) : PoolState := st

/-- Source `shutdown`: stop the reaper, drain, destroy every remaining
connection, and reject every queued waiter. -/
def shutdownPool (st : PoolState) : PoolState :=
  let st := { (drainPool { st with cleanupActive := false }) with cleanupActive := false }
  let destroyedActive : Int := (st.connections.filter (fun c => c.inUse)).length
  let destroyedIdle : Int := (st.connections.filter (fun c => !c.inUse)).length
  { st with
    connections := []
    waitingQueue := 0
    metrics :=
      { st.metrics with
        totalDestroyed := st.metrics.totalDestroyed + st.connections.length
        activeConnections := st.metrics.activeConnections - destroyedActive
        idleConnections := st.metrics.idleConnections - destroyedIdle
        waitingRequests := st.metrics.waitingRequests - st.waitingQueue } }

/-- One sequential pool operation. -/
inductive PoolOp where
  | acquire (now : Nat)
  | release (id : Nat) (now : Nat)
  | waiterTimeout
  | cleanup (now : Nat)
  | drain
  | shutdown

/-- Apply one operation. -/
def applyPoolOp (cfg : PoolConfig) (st : PoolState) : PoolOp → PoolState
  | .acquire now => acquire cfg now st
  | .release id now => releaseConn id now st
  | .waiterTimeout => waiterTimeout st
  | .cleanup now => cleanupIdleConnections cfg now st
  | .drain => drainPool st
  | .shutdown => shutdownPool st

/-- Run a sequence of pool operations from the freshly constructed pool. -/
def runPool (cfg : PoolConfig) (ops : List PoolOp) : PoolState :=
  ops.foldl (applyPoolOp cfg) {}

/-! ## HTTP stream adapter (http-stream.ts, `httpToStream`) -/

/-- What `res` received: a status code and an optional body.  The body is
the serialized message; serialization (`JSON.stringify`) is kept as the
message value itself. -/
structure HttpResponseSent where
  status : Nat
  body : Option JVal

/-- The writable-side state captured by the `httpToStream` closure. -/
structure HttpStreamState where
  responseBuffer : Option JVal := none
  responseWritten : Bool := false
  sent : Option HttpResponseSent := none

/-- The error message thrown on a second write. -/
def multipleWritesMsg : String :=
  "HTTP stream does not support multiple writes. Each HTTP request can only send one response message. Previous message would be silently discarded."

/-- The sink's `write`: buffer the single response message; any further
write throws. -/
def httpWrite (message : JVal) (st : HttpStreamState) : Except String HttpStreamState :=
  match st.responseBuffer with
  | some _ => Except.error multipleWritesMsg
  | none => Except.ok { st with responseBuffer := some message }

/-- The sink's `close`: send the buffered message as a 200 JSON response,
or 204 No Content when nothing was buffered; idempotent once written. -/
def httpClose (st : HttpStreamState) : HttpStreamState :=
  if jsTruthyOpt st.responseBuffer ∧ st.responseWritten = false then
    { st with
      responseWritten := true
      sent := some { status := 200, body := st.responseBuffer } }
  else if st.responseWritten = false then
    { st with
      responseWritten := true
      sent := some { status := 204, body := none } }
  else st

/-- The sink's `abort`: a 500 JSON-RPC internal-error envelope when no
response has been written yet. -/
def httpAbort (errMsg : String) (st : HttpStreamState) : HttpStreamState :=
  if st.responseWritten = false then
    { st with
      responseWritten := true
      sent := some
        { status := 500
          body := some (JVal.obj
            [("jsonrpc", JVal.str ("2.0")),
             ("id", JVal.null),
             ("error", JVal.obj
               [("code", JVal.num (-32603)),
                ("message", JVal.str ("Connection aborted")),
                ("data", JVal.str errMsg)])]) } }
  else st

/-! ## Session mode catalog (session manager) -/

/-- A session mode advertised by the session manager. -/
structure SessionMode where
  id : String
  name : String
  description : Option String := none
  permissionBehavior : Option String := none
  availableTools : Option (List String) := none

/-- Modelled from the spec: the fixed mode catalog of the session manager
(`src/session/manager.ts` is not in the repository snapshot) — `ask`
(strict, no declared tools), `plan` (strict, `[filesystem]`), `agent`
(strict, `[filesystem, terminal]`).  The entry order follows the
repository's canonical session-modes unit test
(tests/unit/session/session-modes.test.ts), which pins the
`getAvailableModes()` id list to exactly `[agent, plan, ask]`. -/
def specModeCatalog : List SessionMode :=
  [{ id := "agent", name := "Agent", permissionBehavior := some ("strict")
     availableTools := some [("filesystem"), ("terminal")] },
   { id := "plan", name := "Plan", permissionBehavior := some ("strict")
     availableTools := some [("filesystem")] },
   { id := "ask", name := "Ask", permissionBehavior := some ("strict") }]

/-- The declared tool list of a mode id in a catalog, with the `?? []`
default the test applies when a mode declares no tools. -/
def declaredTools (catalog : List SessionMode) (id : String) : List String :=
  match catalog.find? (fun m => decide (m.id = id)) with
  | some m => m.availableTools.getD []
  | none => []

/-- Embedded from the repository's canonical session-modes unit test
(tests/unit/session/session-modes.test.ts): the expectations of that
suite that bear on the catalog's shape — the `getAvailableModes()` id
list equals exactly `[agent, plan, ask]`; `ask` declares no tools
(`availableTools` undefined), `plan` declares exactly `[filesystem]`,
`agent` declares exactly `[filesystem, terminal]`; every mode's
permission behaviour is `strict`; and tool availability increases
monotonically (`|ask| ≤ |plan| < |agent|`, and agent's tools are a
superset of plan's).  The suite also checks names, descriptions and ACP
structural fields, which are outside the claim.  (A second, unnamed
duplicate of this suite in the snapshot expects ids ask/architect/code
instead; its exact-id expectation cannot hold together with this suite's
`toEqual(['agent','plan','ask'])` and it is treated as stale.) -/
def catalogPassesSessionModesTest (catalog : List SessionMode) : Bool :=
  decide (catalog.map (fun m => m.id) = [("agent"), ("plan"), ("ask")])
  && (match catalog.find? (fun m => decide (m.id = "ask")) with
      | some m => m.availableTools.isNone
      | none => false)
  && decide ((catalog.find? (fun m => decide (m.id = "plan"))).map
        (fun m => m.availableTools) = some (some [("filesystem")]))
  && decide ((catalog.find? (fun m => decide (m.id = "agent"))).map
        (fun m => m.availableTools) = some (some [("filesystem"), ("terminal")]))
  && catalog.all (fun m => decide (m.permissionBehavior = some ("strict")))
  && decide ((declaredTools catalog ("ask")).length ≤ (declaredTools catalog ("plan")).length)
  && decide ((declaredTools catalog ("plan")).length < (declaredTools catalog ("agent")).length)
  && (declaredTools catalog ("plan")).all
      (fun t => decide (t ∈ declaredTools catalog ("agent")))

/-! ## Theorems -/

/-- Preservation lemma: every sequential pool operation keeps the pool map
within `maxConnections` and keeps `totalCreated = totalDestroyed + |pool|`. -/
theorem applyPoolOp_preserves (cfg : PoolConfig) (st : PoolState) (op : PoolOp)
    (h1 : st.connections.length ≤ cfg.maxConnections)
    (h2 : st.metrics.totalCreated = st.metrics.totalDestroyed + st.connections.length) :
    (applyPoolOp cfg st op).connections.length ≤ cfg.maxConnections
    ∧ (applyPoolOp cfg st op).metrics.totalCreated
        = (applyPoolOp cfg st op).metrics.totalDestroyed
          + (applyPoolOp cfg st op).connections.length := by
  cases op with
  | acquire now =>
    simp only [applyPoolOp, acquire]
    split
    · constructor
      · simpa [markInUse] using h1
      · simpa [markInUse] using h2
    · split
      · next hlt =>
        constructor
        · simp only [markInUse, createConnection, List.length_map, List.length_append,
            List.length_cons, List.length_nil]
          simpa using hlt
        · simp [markInUse, createConnection]
          omega
      · exact ⟨h1, h2⟩
  | release id now =>
    simp only [applyPoolOp, releaseConn]
    split
    · exact ⟨h1, h2⟩
    · split
      · split
        · constructor
          · simpa using h1
          · simpa using h2
        · constructor
          · simpa [markInUse] using h1
          · simpa [markInUse] using h2
      · constructor
        · simpa using h1
        · simpa using h2
  | waiterTimeout =>
    simp only [applyPoolOp, waiterTimeout]
    split
    · exact ⟨h1, h2⟩
    · exact ⟨h1, h2⟩
  | cleanup now =>
    simp only [applyPoolOp, cleanupIdleConnections]
    constructor
    · exact le_trans (List.length_filter_le _ _) h1
    · have hle := List.length_filter_le
        (fun c : PooledConnection => !decide (c.inUse = false ∧ cfg.maxIdleTime < now - c.lastUsedAt))
        st.connections
      omega
  | drain => exact ⟨h1, h2⟩
  | shutdown =>
    refine ⟨?_, ?_⟩
    · simp [applyPoolOp, shutdownPool, drainPool]
    · simp only [applyPoolOp, shutdownPool, drainPool]
      simpa using h2

/-- Invariant along any operation sequence, by induction on the trace. -/
theorem runPool_inv (cfg : PoolConfig) (ops : List PoolOp) :
    (runPool cfg ops).connections.length ≤ cfg.maxConnections
    ∧ (runPool cfg ops).metrics.totalCreated
        = (runPool cfg ops).metrics.totalDestroyed + (runPool cfg ops).connections.length := by
  suffices h : ∀ st : PoolState,
      st.connections.length ≤ cfg.maxConnections →
      st.metrics.totalCreated = st.metrics.totalDestroyed + st.connections.length →
      (ops.foldl (applyPoolOp cfg) st).connections.length ≤ cfg.maxConnections
      ∧ (ops.foldl (applyPoolOp cfg) st).metrics.totalCreated
          = (ops.foldl (applyPoolOp cfg) st).metrics.totalDestroyed
            + (ops.foldl (applyPoolOp cfg) st).connections.length by
    exact h {} (by simp) (by simp)
  induction ops with
  | nil => intro st hA hB; exact ⟨hA, hB⟩
  | cons op rest ih =>
    intro st hA hB
    have hstep := applyPoolOp_preserves cfg st op hA hB
    exact ih (applyPoolOp cfg st op) hstep.1 hstep.2

/-- C2: along every sequence of pool operations the connection map never
exceeds `maxConnections`, and at completion of `shutdown()` the pool is
empty and `totalCreated − totalDestroyed = |pool|` holds. -/
theorem connectionPool_invariant (cfg : PoolConfig) (ops : List PoolOp) :
    (runPool cfg ops).connections.length ≤ cfg.maxConnections
    ∧ (runPool cfg ops).metrics.totalCreated
        = (runPool cfg ops).metrics.totalDestroyed + (runPool cfg ops).connections.length
    ∧ (runPool cfg (ops ++ [PoolOp.shutdown])).connections = []
    ∧ (runPool cfg (ops ++ [PoolOp.shutdown])).metrics.totalCreated
        - (runPool cfg (ops ++ [PoolOp.shutdown])).metrics.totalDestroyed
        = (runPool cfg (ops ++ [PoolOp.shutdown])).connections.length := by
  have hbase := runPool_inv cfg ops
  have happ := runPool_inv cfg (ops ++ [PoolOp.shutdown])
  have hempty : (runPool cfg (ops ++ [PoolOp.shutdown])).connections = [] := by
    simp [runPool, List.foldl_append, applyPoolOp, shutdownPool, drainPool]
  refine ⟨hbase.1, hbase.2, hempty, ?_⟩
  have := happ.2
  rw [hempty] at this ⊢
  simp at this ⊢
  omega

/-- C4 fails as stated: with a registered `read_file` tool requiring
`path` and an empty params object, the handler is never invoked, but the
returned error is `Invalid parameters for read_file: Missing required
parameter: path`, which does not start with `Missing required
parameter: `. -/
theorem executeTool_missingParam_counterexample :
    (executeToolWithSession [{ name := "read_file", required := [("path")] }]
      (Except.ok { success := true }) ("read_file") (some (JVal.obj []))
      (some ("S")) true 0 {}).error
      = some ("Invalid parameters for read_file: Missing required parameter: path")
    ∧ strStartsWith ("Missing required parameter: ")
        ("Invalid parameters for read_file: Missing required parameter: path") = false := by
  constructor
  · rfl
  · decide

/-- C4 (amended): a tool call whose tool resolves and whose validation
fails because a required key is missing never reaches the handler (the
event trace is empty) and yields `success:false` with the error
`Invalid parameters for <name>: Missing required parameter: <key>` — the
claimed marker is contained in, but does not begin, the error string. -/
theorem executeTool_missingParam (tools : List Tool) (tool : Tool)
    (handlerOutcome : Except String ToolResult) (name : String)
    (parameters : Option JVal) (sessionId : Option String) (hasManager : Bool)
    (now : Nat) (mgr : ManagerState) (k : String)
    (hfind : tools.find? (fun t => decide (t.name = name)) = some tool)
    (hval : validateToolParameters tool parameters
      = some ("Missing required parameter: " ++ k)) :
    (executeToolWithSession tools handlerOutcome name parameters sessionId hasManager now mgr).success = false
    ∧ (executeToolWithSession tools handlerOutcome name parameters sessionId hasManager now mgr).error
        = some ("Invalid parameters for " ++ name ++ ": "
            ++ ("Missing required parameter: " ++ k))
    ∧ (executeToolWithSession tools handlerOutcome name parameters sessionId hasManager now mgr).events
        = [] := by
  simp [executeToolWithSession, hfind, hval]

/-- Witness for the amended C4 theorem at a concrete registry and input. -/
theorem executeTool_missingParam_witness :
    ([{ name := "read_file", required := [("path")] }] :
        List Tool).find? (fun t => decide (t.name = "read_file"))
      = some { name := "read_file", required := [("path")] }
    ∧ validateToolParameters { name := "read_file", required := [("path")] }
        (some (JVal.obj [])) = some ("Missing required parameter: " ++ "path")
    ∧ (executeToolWithSession [{ name := "read_file", required := [("path")] }]
        (Except.ok { success := true }) ("read_file") (some (JVal.obj []))
        (some ("S")) true 0 {}).success = false := by
  refine ⟨rfl, rfl, ?_⟩
  exact (executeTool_missingParam [{ name := "read_file", required := [("path")] }]
    { name := "read_file", required := [("path")] } (Except.ok { success := true })
    ("read_file") (some (JVal.obj [])) (some ("S")) true 0 {} ("path") rfl rfl).1

/-- C5 fails as stated: for params `{source:"/a", destination:"/b"}` the
extracted locations are not `[{path:"/a"}, {path:"/b"}]` — the extractor
recognises `sourcePath`, not `source`, so only the destination is
reported. -/
theorem extractLocations_source_counterexample :
    extractLocations [(("source"), JVal.str ("/a")), (("destination"), JVal.str ("/b"))]
      ≠ [{ path := JVal.str ("/a") }, { path := JVal.str ("/b") }] := by
  intro h
  exact absurd (congrArg List.length h) (by decide)

/-- C5 (amended): location extraction on the three claimed inputs —
`{path:"/x"}` yields exactly `[{path:"/x"}]` and `{files:["/p","/q"]}`
yields exactly `[{path:"/p"},{path:"/q"}]`, but `{source:"/a",
destination:"/b"}` yields exactly `[{path:"/b"}]` (the `source` key is
not consulted; only `path`/`sourcePath` and
`destinationPath`/`destination` are). -/
theorem extractLocations_examples :
    extractLocations [(("path"), JVal.str ("/x"))] = [{ path := JVal.str ("/x") }]
    ∧ extractLocations [(("source"), JVal.str ("/a")), (("destination"), JVal.str ("/b"))]
        = [{ path := JVal.str ("/b") }]
    ∧ extractLocations [(("files"), JVal.arr [JVal.str ("/p"), JVal.str ("/q")])]
        = [{ path := JVal.str ("/p") }, { path := JVal.str ("/q") }] :=
  ⟨rfl, rfl, rfl⟩

/-- C6 fails as stated: the initial `tool_call` notification emitted by
`executeWithProgress` for `npm install` carries kind `edit` (hard-coded in
the source), not `execute`. -/
theorem executeWithProgress_kind_counterexample :
    (executeWithProgressReport ("S") ("npm") [("install")] none none ("term-1") 0 {}).2.2.head?
      = some
        { sessionId := "S"
          update := SessionUpdate.toolCall
            { toolCallId := "tool_execute_command_0_1"
              title := "$ npm install"
              kind := ToolKind.edit
              status := ToolCallStatus.inProgress
              rawInput := some
                [(("command"), JVal.str ("npm")),
                 (("args"), JVal.arr [JVal.str ("install")])] } }
    ∧ ToolKind.edit ≠ ToolKind.execute := by
  exact ⟨rfl, by decide⟩

/-- C6 (amended): every `executeWithProgress` run reports its tool call
with an initial `tool_call` notification of kind `edit` and status
`in_progress`, titled `$ <command> <args>` when no title option is
supplied. -/
theorem executeWithProgress_initial_report (s command : String) (args : List String)
    (cwd? : Option String) (terminalId : String) (now : Nat) (st : ManagerState) :
    ∃ u : ToolCallUpdate,
      (executeWithProgressReport s command args none cwd? terminalId now st).2.2.head?
        = some { sessionId := s, update := SessionUpdate.toolCall u }
      ∧ u.kind = ToolKind.edit
      ∧ u.status = ToolCallStatus.inProgress
      ∧ u.title = "$ " ++ command ++ " " ++ String.intercalate (" ") args := by
  exact ⟨_, rfl, rfl, rfl, rfl⟩

/-- C7: the claimed retry behaviour never happens — `_readFileOnce`
converts every raised error into a structured `{success:false}` result,
so a permanently failing transient client error (`ECONNRESET`) produces a
single attempt, no backoff delays and no raised error, with the wrapped
message returned as the result. -/
theorem readFile_transient_no_retry :
    readFile {} (fun _ => FsClientResult.rejected ("ECONNRESET"))
      [(("_sessionId"), JVal.str ("S")), (("path"), JVal.str ("/a.txt"))]
      = { outcome := Except.ok
            { success := false
              error := some ("File system read operation failed for '/a.txt': ECONNRESET") }
          attemptsMade := 1
          delays := [] } :=
  rfl

/-- C8: the HTTP writable sink buffers exactly one message — a second
write throws the multiple-writes error while leaving the buffer intact,
closing after one write responds 200 with the buffered message as body,
and closing with no buffered message responds 204 with no body. -/
theorem httpToStream_single_write (m1 m2 : JVal) (h : jsTruthy m1 = true) :
    httpWrite m1 {} = Except.ok { responseBuffer := some m1 }
    ∧ httpWrite m2 { responseBuffer := some m1 } = Except.error multipleWritesMsg
    ∧ strStartsWith ("HTTP stream does not support multiple writes")
        multipleWritesMsg = true
    ∧ httpClose { responseBuffer := some m1 }
        = { responseBuffer := some m1, responseWritten := true
            sent := some { status := 200, body := some m1 } }
    ∧ httpClose {}
        = { responseBuffer := none, responseWritten := true
            sent := some { status := 204, body := none } } := by
  refine ⟨rfl, rfl, by decide, ?_, by simp [httpClose, jsTruthyOpt]⟩
  simp [httpClose, jsTruthyOpt, h]

/-- Witness for the C8 theorem at a concrete JSON-RPC response message. -/
theorem httpToStream_single_write_witness :
    jsTruthy (JVal.obj [(("jsonrpc"), JVal.str ("2.0"))]) = true
    ∧ httpWrite (JVal.obj [(("jsonrpc"), JVal.str ("2.0"))]) {}
        = Except.ok { responseBuffer := some (JVal.obj [(("jsonrpc"), JVal.str ("2.0"))]) } := by
  refine ⟨rfl, ?_⟩
  exact (httpToStream_single_write (JVal.obj [(("jsonrpc"), JVal.str ("2.0"))]) JVal.null rfl).1

/-- C9: the session manager's fixed mode catalog (modelled from the
spec; the manager source is absent from the snapshot) consists of exactly
the mode ids `agent`, `plan` and `ask`, where `ask` declares no tools,
`plan` declares `[filesystem]` and `agent` declares
`[filesystem, terminal]`; declared tool availability is monotonically
increasing across the catalog (ask ⊆ plan ⊆ agent), and the catalog
passes the catalog expectations of the repository's canonical
session-modes unit test. -/
theorem sessionModes_catalog :
    specModeCatalog.map (fun m => m.id) = [("agent"), ("plan"), ("ask")]
    ∧ declaredTools specModeCatalog ("ask") = []
    ∧ declaredTools specModeCatalog ("plan") = [("filesystem")]
    ∧ declaredTools specModeCatalog ("agent") = [("filesystem"), ("terminal")]
    ∧ (∀ t ∈ declaredTools specModeCatalog ("ask"),
        t ∈ declaredTools specModeCatalog ("plan"))
    ∧ (∀ t ∈ declaredTools specModeCatalog ("plan"),
        t ∈ declaredTools specModeCatalog ("agent"))
    ∧ catalogPassesSessionModesTest specModeCatalog = true := by
  decide

/-- C10: `requestToolPermission` never throws, and defaults as the source
does — no wired handler yields `allow-once` regardless of the call or the
options; an unknown tool call id, a throwing handler and a falsy handler
outcome all yield `reject-once`. -/
theorem requestToolPermission_defaults
    (handler : Option (RequestPermissionParams → HandlerResult))
    (s id : String) (options : List PermissionOption) (st : ManagerState) :
    (handler = none →
      requestToolPermission handler s id options st
        = { outcome := "selected", optionId := some ("allow-once") })
    ∧ (∀ f, handler = some f → st.lookup id = none →
      requestToolPermission handler s id options st
        = { outcome := "selected", optionId := some ("reject-once") })
    ∧ (∀ f info msg, handler = some f → st.lookup id = some info →
        f { sessionId := s, toolCall := info.update, options := options }
          = HandlerResult.threw msg →
      requestToolPermission handler s id options st
        = { outcome := "selected", optionId := some ("reject-once") })
    ∧ (∀ f info, handler = some f → st.lookup id = some info →
        f { sessionId := s, toolCall := info.update, options := options }
          = HandlerResult.returned none →
      requestToolPermission handler s id options st
        = { outcome := "selected", optionId := some ("reject-once") }) := by
  refine ⟨?_, ?_, ?_, ?_⟩
  · intro h; subst h; rfl
  · intro f h hl; subst h; simp [requestToolPermission, hl]
  · intro f info msg h hl hf; subst h; simp [requestToolPermission, hl, hf]
  · intro f info h hl hf; subst h; simp [requestToolPermission, hl, hf]

/-- Witness for the C10 theorem: the missing-handler default at concrete
inputs, and the throwing-handler default on a tracked tool call. -/
theorem requestToolPermission_defaults_witness :
    requestToolPermission none ("S") ("id1") [] {}
      = { outcome := "selected", optionId := some ("allow-once") }
    ∧ requestToolPermission (some (fun _ => HandlerResult.threw ("boom")))
        ("S") ("id1") []
        { activeToolCalls :=
            [{ toolCallId := "id1", sessionId := "S", toolName := "t"
               status := ToolCallStatus.pending, startTime := 0
               update := { toolCallId := "id1", title := "T"
                           kind := ToolKind.other, status := ToolCallStatus.pending } }] }
      = { outcome := "selected", optionId := some ("reject-once") } := by
  constructor
  · exact (requestToolPermission_defaults none ("S") ("id1") [] {}).1 rfl
  · exact (requestToolPermission_defaults (some (fun _ => HandlerResult.threw ("boom")))
      ("S") ("id1") []
      { activeToolCalls :=
          [{ toolCallId := "id1", sessionId := "S", toolName := "t"
             status := ToolCallStatus.pending, startTime := 0
             update := { toolCallId := "id1", title := "T"
                         kind := ToolKind.other, status := ToolCallStatus.pending } }] }).2.2.1
      (fun _ => HandlerResult.threw ("boom"))
      { toolCallId := "id1", sessionId := "S", toolName := "t"
        status := ToolCallStatus.pending, startTime := 0
        update := { toolCallId := "id1", title := "T"
                    kind := ToolKind.other, status := ToolCallStatus.pending } }
      ("boom") rfl rfl rfl

/-- Helper: after `activeToolCalls.set(id, info)` with `info` keyed by
`id`, the map lookup for `id` succeeds. -/
theorem lookup_setToolCall (id : String) (info : ToolCallInfo) (l : List ToolCallInfo)
    (h : info.toolCallId = id) :
    ∃ j, List.find? (fun c => decide (c.toolCallId = id)) (setToolCall id info l) = some j := by
  rw [← Option.isSome_iff_exists, List.find?_isSome]
  unfold setToolCall
  split
  · next hany =>
    obtain ⟨c, hc, hcid⟩ := List.any_eq_true.mp hany
    refine ⟨info, List.mem_map.mpr ⟨c, hc, ?_⟩, by simp [h]⟩
    simp [of_decide_eq_true hcid]
  · exact ⟨info, by simp, by simp [h]⟩

/-- Helper: a per-entry rewrite that preserves keys preserves whether a
map lookup succeeds. -/
theorem find?_isSome_map (l : List ToolCallInfo) (f : ToolCallInfo → ToolCallInfo)
    (id : String) (hf : ∀ c, (f c).toolCallId = c.toolCallId) :
    (List.find? (fun c => decide (c.toolCallId = id)) (l.map f)).isSome
      = (List.find? (fun c => decide (c.toolCallId = id)) l).isSome := by
  induction l with
  | nil => rfl
  | cons c rest ih =>
    by_cases hc : c.toolCallId = id
    · rw [List.map_cons, List.find?_cons_of_pos _ (by simp [hf, hc]),
        List.find?_cons_of_pos _ (by simp [hc])]
      rfl
    · rw [List.map_cons, List.find?_cons_of_neg _ (by simp [hf, hc]),
        List.find?_cons_of_neg _ (by simp [hc]), ih]

/-- Helper: `applyUpdateInfo` never changes the key of a record. -/
theorem applyUpdateInfo_toolCallId (u : UpdateOptions) (now : Nat) (c : ToolCallInfo) :
    (applyUpdateInfo u now c).toolCallId = c.toolCallId := by
  unfold applyUpdateInfo
  cases u.status <;> rfl

/-- Helper: the equation of `updateToolCall` on a tracked id. -/
theorem updateToolCall_found (s id : String) (u : UpdateOptions) (now : Nat)
    (st : ManagerState) (i : ToolCallInfo) (h : st.lookup id = some i) :
    updateToolCall s id u now st
      = ({ st with
            activeToolCalls := st.activeToolCalls.map (fun c =>
              if c.toolCallId = id then applyUpdateInfo u now c else c) },
         [{ sessionId := s
            update := SessionUpdate.toolCallUpdate
              { toolCallId := id, title := u.title, status := u.status
                content := u.content, locations := u.locations
                rawOutput := u.rawOutput } }]) := by
  unfold updateToolCall
  rw [h]

/-- Helper: the equation of `updateToolCall` when the id is tracked,
phrased on `isSome` so it can rewrite conditionally. -/
theorem updateToolCall_of_isSome (s id : String) (u : UpdateOptions) (now : Nat)
    (st : ManagerState) (h : (st.lookup id).isSome = true) :
    updateToolCall s id u now st
      = ({ st with
            activeToolCalls := st.activeToolCalls.map (fun c =>
              if c.toolCallId = id then applyUpdateInfo u now c else c) },
         [⟨s, SessionUpdate.toolCallUpdate
            ⟨id, u.title, u.status, u.content, u.locations, u.rawOutput⟩⟩]) := by
  obtain ⟨i, hi⟩ := Option.isSome_iff_exists.mp h
  unfold updateToolCall
  rw [hi]

/-- Helper: the notification returned by `reportToolCall`, in terms of the
issued id. -/
theorem reportToolCall_notif (s name : String) (opts : ReportOptions) (now : Nat)
    (mgr : ManagerState) :
    (reportToolCall s name opts now mgr).2.2
      = ⟨s, SessionUpdate.toolCall
          ⟨(reportToolCall s name opts now mgr).1, opts.title, opts.kind,
           opts.status.getD ToolCallStatus.pending, opts.rawInput, opts.locations,
           none, none⟩⟩ :=
  rfl

/-- Helper: the id issued by `reportToolCall` is tracked in the state it
returns. -/
theorem reportToolCall_lookup_isSome (s name : String) (opts : ReportOptions)
    (now : Nat) (mgr : ManagerState) :
    (((reportToolCall s name opts now mgr).2.1).lookup
        ((reportToolCall s name opts now mgr).1)).isSome = true := by
  obtain ⟨j, hj⟩ := lookup_setToolCall
    ("tool_" ++ name ++ "_" ++ toString now ++ "_" ++ toString (mgr.toolCallCounter + 1))
    { toolCallId := "tool_" ++ name ++ "_" ++ toString now ++ "_" ++ toString (mgr.toolCallCounter + 1)
      sessionId := s
      toolName := name
      status := opts.status.getD ToolCallStatus.pending
      startTime := now
      update :=
        { toolCallId := "tool_" ++ name ++ "_" ++ toString now ++ "_" ++ toString (mgr.toolCallCounter + 1)
          title := opts.title
          kind := opts.kind
          status := opts.status.getD ToolCallStatus.pending
          rawInput := opts.rawInput
          locations := opts.locations } }
    mgr.activeToolCalls rfl
  simp only [reportToolCall, generateToolCallId, ManagerState.lookup]
  rw [hj]
  rfl

/-- Helper: the per-id record rewrite performed by `updateToolCall` keeps
every lookup's success unchanged. -/
theorem lookup_isSome_mapUpd (l : List ToolCallInfo) (k : Nat) (id id2 : String)
    (u : UpdateOptions) (now : Nat) :
    ((ManagerState.mk (l.map (fun c =>
        if c.toolCallId = id then applyUpdateInfo u now c else c)) k).lookup id2).isSome
      = ((ManagerState.mk l k).lookup id2).isSome := by
  simp only [ManagerState.lookup]
  exact find?_isSome_map l _ id2
    (fun c => by
      by_cases hc : c.toolCallId = id <;> simp [hc, applyUpdateInfo_toolCallId])

/-- Helper: structure eta for manager lookups. -/
theorem lookup_mk_eta (st : ManagerState) (id : String) :
    (ManagerState.mk st.activeToolCalls st.toolCallCounter).lookup id = st.lookup id :=
  rfl

/-- C1: for a reported execution (session id present, manager wired,
tool registered, validation passing), the event trace is exactly one
`tool_call` notification with status `pending`, then one
`tool_call_update` with status `in_progress`, both before the handler is
invoked, then one final `tool_call_update` whose status is `completed`
iff the handler returned `success:true` and `failed` otherwise (also when
the handler threw); all three notifications carry the same issued
`toolCallId`, and nothing for that id follows the terminal update. -/
theorem executeToolWithSession_lifecycle
    (tools : List Tool) (tool : Tool) (handlerOutcome : Except String ToolResult)
    (name : String) (parameters : Option JVal) (s : String) (now : Nat) (mgr : ManagerState)
    (hfind : tools.find? (fun t => decide (t.name = name)) = some tool)
    (hval : validateToolParameters tool parameters = none) :
    ∃ (id : String) (u : ToolCallUpdate) (p3 : ToolCallUpdatePayload),
      (executeToolWithSession tools handlerOutcome name parameters (some s) true now mgr).events
        = [ExecEvent.notif ⟨s, SessionUpdate.toolCall u⟩,
           ExecEvent.notif ⟨s, SessionUpdate.toolCallUpdate
             ⟨id, none, some ToolCallStatus.inProgress, none, none, none⟩⟩,
           ExecEvent.handlerCall,
           ExecEvent.notif ⟨s, SessionUpdate.toolCallUpdate p3⟩]
      ∧ u.toolCallId = id ∧ u.status = ToolCallStatus.pending
      ∧ p3.toolCallId = id
      ∧ p3.status = some (match handlerOutcome with
          | Except.ok r => if r.success then ToolCallStatus.completed else ToolCallStatus.failed
          | Except.error _ => ToolCallStatus.failed) := by
  cases handlerOutcome with
  | ok r =>
    cases hr : r.success
    · simp only [executeToolWithSession, hfind, hval, hr, completeToolCall, failToolCall,
        reportToolCall_notif, updateToolCall_of_isSome, reportToolCall_lookup_isSome,
        lookup_isSome_mapUpd, lookup_mk_eta, Option.getD_some, List.map_cons, List.map_nil,
        List.cons_append, List.nil_append, List.singleton_append, Bool.false_eq_true,
        if_false, if_true]
      refine ⟨_, _, _, rfl, ?_, ?_, ?_, ?_⟩ <;> rfl
    · simp only [executeToolWithSession, hfind, hval, hr, completeToolCall, failToolCall,
        reportToolCall_notif, updateToolCall_of_isSome, reportToolCall_lookup_isSome,
        lookup_isSome_mapUpd, lookup_mk_eta, Option.getD_some, List.map_cons, List.map_nil,
        List.cons_append, List.nil_append, List.singleton_append, if_false, if_true]
      refine ⟨_, _, _, rfl, ?_, ?_, ?_, ?_⟩ <;> rfl
  | error msg =>
    simp only [executeToolWithSession, hfind, hval, failToolCall,
      reportToolCall_notif, updateToolCall_of_isSome, reportToolCall_lookup_isSome,
      lookup_isSome_mapUpd, lookup_mk_eta, Option.getD_some, List.map_cons, List.map_nil,
      List.cons_append, List.nil_append, List.singleton_append]
    refine ⟨_, _, _, rfl, ?_, ?_, ?_, ?_⟩ <;> rfl

/-- Helper: the per-id rewrite of `updateToolCall` is invisible after the
record with that id is deleted. -/
theorem filter_ne_mapUpd (l : List ToolCallInfo) (id : String) (u : UpdateOptions)
    (now : Nat) :
    (l.map (fun c => if c.toolCallId = id then applyUpdateInfo u now c else c)).filter
        (fun c => decide (c.toolCallId ≠ id))
      = l.filter (fun c => decide (c.toolCallId ≠ id)) := by
  induction l with
  | nil => rfl
  | cons c rest ih =>
    by_cases hc : c.toolCallId = id
    · have hp1 : decide ((applyUpdateInfo u now c).toolCallId ≠ id) = false := by
        simp [applyUpdateInfo_toolCallId, hc]
      have hp2 : decide (c.toolCallId ≠ id) = false := by simp [hc]
      rw [List.map_cons, if_pos hc, List.filter_cons, List.filter_cons, hp1, hp2]
      simpa using ih
    · simp only [List.map_cons, List.filter_cons, if_neg hc]
      by_cases hcid : decide (c.toolCallId ≠ id) = true
      · rw [if_pos hcid, if_pos hcid, ih]
      · rw [if_neg hcid, if_neg hcid, ih]

/-- Helper: the loop of `cancelSessionToolCalls` over a snapshot with
distinct ids, all tracked: it emits exactly one failed/"Cancelled by
user" update per non-terminal snapshot entry and removes every snapshot
id from the map, leaving all other records untouched. -/
theorem cancelLoop_spec (s : String) (now : Nat) (calls : List ToolCallInfo) :
    ∀ st : ManagerState,
    (calls.map (fun c => c.toolCallId)).Nodup →
    (∀ c ∈ calls, ∃ e ∈ st.activeToolCalls, e.toolCallId = c.toolCallId) →
    (cancelLoop s now calls st).2
      = (calls.filter (fun c =>
          decide (c.status = ToolCallStatus.pending ∨ c.status = ToolCallStatus.inProgress))).map
          (fun c => ⟨s, SessionUpdate.toolCallUpdate
            ⟨c.toolCallId, some ("Cancelled by user"), some ToolCallStatus.failed,
             none, none, none⟩⟩)
    ∧ (cancelLoop s now calls st).1.activeToolCalls
      = st.activeToolCalls.filter
          (fun e => decide (e.toolCallId ∉ calls.map (fun c => c.toolCallId))) := by
  induction calls with
  | nil =>
    intro st hnd hmem
    refine ⟨rfl, ?_⟩
    simp [cancelLoop]
  | cons c rest ih =>
    intro st hnd hmem
    rw [List.map_cons, List.nodup_cons] at hnd
    obtain ⟨hcid, hndr⟩ := hnd
    obtain ⟨e, he, heid⟩ := hmem c (List.mem_cons_self c rest)
    have hsome : (st.lookup c.toolCallId).isSome = true := by
      unfold ManagerState.lookup
      exact List.find?_isSome.mpr ⟨e, he, by simp [heid]⟩
    have hmem2 : ∀ c' ∈ rest,
        ∃ e2 ∈ (ManagerState.mk
          (st.activeToolCalls.filter (fun x => decide (x.toolCallId ≠ c.toolCallId)))
          st.toolCallCounter).activeToolCalls,
          e2.toolCallId = c'.toolCallId := by
      intro c' hc'
      obtain ⟨e2, he2, he2id⟩ := hmem c' (List.mem_cons_of_mem c hc')
      refine ⟨e2, List.mem_filter.mpr ⟨he2, ?_⟩, he2id⟩
      have hne : c'.toolCallId ≠ c.toolCallId := by
        intro hEq
        exact hcid (hEq ▸ List.mem_map_of_mem (fun x => x.toolCallId) hc')
      simp [he2id, hne]
    have hrest := ih (ManagerState.mk
      (st.activeToolCalls.filter (fun x => decide (x.toolCallId ≠ c.toolCallId)))
      st.toolCallCounter) hndr hmem2
    by_cases hcs : c.status = ToolCallStatus.pending ∨ c.status = ToolCallStatus.inProgress
    · have hstep := updateToolCall_of_isSome s c.toolCallId
        { status := some ToolCallStatus.failed, title := some ("Cancelled by user") } now st hsome
      simp only [cancelLoop]
      rw [if_pos hcs, hstep]
      simp only [deleteToolCall, filter_ne_mapUpd]
      rw [List.filter_cons, if_pos (by simpa using hcs), List.map_cons]
      refine ⟨?_, ?_⟩
      · rw [List.singleton_append]
        congr 1
        exact hrest.1
      · rw [hrest.2, List.filter_filter]
        refine List.filter_congr ?_
        intro x hx
        simp [List.mem_cons, not_or, Bool.and_comm]
    · simp only [cancelLoop]
      rw [if_neg hcs]
      simp only [deleteToolCall]
      rw [List.filter_cons, if_neg (by simpa using hcs)]
      refine ⟨?_, ?_⟩
      · simpa using hrest.1
      · rw [hrest.2, List.filter_filter]
        refine List.filter_congr ?_
        intro x hx
        simp [List.mem_cons, not_or, Bool.and_comm]

/-- C3: `cancelSessionToolCalls(S)` emits exactly one `tool_call_update`
with status `failed` and title "Cancelled by user" for each of the
session's tracked tool calls whose status is pending or in-progress (and
none for calls already terminal), and afterwards the active map holds no
entry of that session. -/
theorem cancelSessionToolCalls_spec (s : String) (now : Nat) (st : ManagerState)
    (hnd : (st.activeToolCalls.map (fun c => c.toolCallId)).Nodup) :
    (cancelSessionToolCalls s now st).2
      = ((getSessionToolCalls s st).filter (fun c =>
          decide (c.status = ToolCallStatus.pending ∨ c.status = ToolCallStatus.inProgress))).map
          (fun c => ⟨s, SessionUpdate.toolCallUpdate
            ⟨c.toolCallId, some ("Cancelled by user"), some ToolCallStatus.failed,
             none, none, none⟩⟩)
    ∧ getSessionToolCalls s (cancelSessionToolCalls s now st).1 = [] := by
  have hsub : List.Sublist ((getSessionToolCalls s st).map (fun c => c.toolCallId))
      (st.activeToolCalls.map (fun c => c.toolCallId)) :=
    List.Sublist.map _ (List.filter_sublist _)
  have hndsnap : ((getSessionToolCalls s st).map (fun c => c.toolCallId)).Nodup :=
    List.Nodup.sublist hsub hnd
  have hmem : ∀ c ∈ getSessionToolCalls s st,
      ∃ e ∈ st.activeToolCalls, e.toolCallId = c.toolCallId := by
    intro c hc
    exact ⟨c, (List.mem_filter.mp hc).1, rfl⟩
  have h := cancelLoop_spec s now (getSessionToolCalls s st) st hndsnap hmem
  unfold cancelSessionToolCalls
  refine ⟨h.1, ?_⟩
  show ((cancelLoop s now (getSessionToolCalls s st) st).1.activeToolCalls.filter
    (fun c => decide (c.sessionId = s))) = []
  rw [h.2]
  rw [List.filter_eq_nil_iff]
  intro e hemem
  obtain ⟨heSt, heNot⟩ := List.mem_filter.mp hemem
  intro heS
  have heSnap : e ∈ getSessionToolCalls s st := List.mem_filter.mpr ⟨heSt, heS⟩
  have hin : e.toolCallId ∈ (getSessionToolCalls s st).map (fun c => c.toolCallId) :=
    List.mem_map_of_mem _ heSnap
  exact (of_decide_eq_true heNot) hin

/-- Witness for the C3 theorem on a session with one in-progress and one
completed tracked call. -/
theorem cancelSessionToolCalls_spec_witness :
    (([(⟨"a", "S", "t1", ToolCallStatus.inProgress, 0, none,
         ⟨"a", "T1", ToolKind.other, ToolCallStatus.inProgress, none, none, none, none⟩⟩ :
         ToolCallInfo),
       (⟨"b", "S", "t2", ToolCallStatus.completed, 0, none,
         ⟨"b", "T2", ToolKind.other, ToolCallStatus.completed, none, none, none, none⟩⟩ :
         ToolCallInfo)]).map (fun c => c.toolCallId)).Nodup
    ∧ getSessionToolCalls ("S")
        (cancelSessionToolCalls ("S") 5
          ⟨[⟨"a", "S", "t1", ToolCallStatus.inProgress, 0, none,
             ⟨"a", "T1", ToolKind.other, ToolCallStatus.inProgress, none, none, none, none⟩⟩,
            ⟨"b", "S", "t2", ToolCallStatus.completed, 0, none,
             ⟨"b", "T2", ToolKind.other, ToolCallStatus.completed, none, none, none, none⟩⟩], 0⟩).1
        = [] := by
  refine ⟨by decide, ?_⟩
  exact (cancelSessionToolCalls_spec ("S") 5
    ⟨[⟨"a", "S", "t1", ToolCallStatus.inProgress, 0, none,
       ⟨"a", "T1", ToolKind.other, ToolCallStatus.inProgress, none, none, none, none⟩⟩,
      ⟨"b", "S", "t2", ToolCallStatus.completed, 0, none,
       ⟨"b", "T2", ToolKind.other, ToolCallStatus.completed, none, none, none, none⟩⟩], 0⟩
    (by decide)).2

/-- Witness for the C1 theorem: a registered `read_file` tool, valid
params and a succeeding handler. -/
theorem executeToolWithSession_lifecycle_witness :
    ([{ name := "read_file", required := [("path")] }] : List Tool).find?
        (fun t => decide (t.name = "read_file"))
      = some { name := "read_file", required := [("path")] }
    ∧ validateToolParameters { name := "read_file", required := [("path")] }
        (some (JVal.obj [(("path"), JVal.str ("/x"))])) = none
    ∧ ∃ (id : String) (u : ToolCallUpdate) (p3 : ToolCallUpdatePayload),
        (executeToolWithSession [{ name := "read_file", required := [("path")] }]
          (Except.ok { success := true }) ("read_file")
          (some (JVal.obj [(("path"), JVal.str ("/x"))])) (some ("S")) true 0 {}).events
          = [ExecEvent.notif ⟨"S", SessionUpdate.toolCall u⟩,
             ExecEvent.notif ⟨"S", SessionUpdate.toolCallUpdate
               ⟨id, none, some ToolCallStatus.inProgress, none, none, none⟩⟩,
             ExecEvent.handlerCall,
             ExecEvent.notif ⟨"S", SessionUpdate.toolCallUpdate p3⟩]
        ∧ u.toolCallId = id ∧ u.status = ToolCallStatus.pending
        ∧ p3.toolCallId = id
        ∧ p3.status = some (match (Except.ok { success := true } :
              Except String ToolResult) with
            | Except.ok r =>
              if r.success then ToolCallStatus.completed else ToolCallStatus.failed
            | Except.error _ => ToolCallStatus.failed) := by
  refine ⟨rfl, rfl, ?_⟩
  exact executeToolWithSession_lifecycle
    [{ name := "read_file", required := [("path")] }]
    { name := "read_file", required := [("path")] }
    (Except.ok { success := true }) ("read_file")
    (some (JVal.obj [(("path"), JVal.str ("/x"))])) ("S") 0 {} rfl rfl

end CursorAcp
